import Mathlib

/-!
Verification of the palabra translation-avatar session engine.

Shallow embedding of the Go sources:
* `ipc` package (framed IPC codec: `MessageWriter.WriteMessage`,
  `MessageReader.ReadMessage`),
* `services/agora_bot.go` (`upsample16to24`, `isFrameSilent`, the
  `OnPlaybackAudioFrameBeforeMixing` voice-activity-detection callback,
  `GetIdleDuration`),
* `services/bot_worker.go` (`BotWorker.Run` select loop),
* the `BotProcessManager` (`StopSession`) and the `PalabraStart` handler
  (dedup registry, avatar/bot/translator uid assignment).

Bytes are modelled as `Nat` values below 256, Go `int16`/`int32`/`uint32`
arithmetic as `Int`/`Nat` with explicit wrapping, Go maps keyed by strings
as association lists, and fallible operations as `Except`.
-/

namespace Palabra

/-! ### Framed IPC codec (`services/ipc`, `src/unnamed/part_000`) -/

/-- `MaxMessageSize` from the ipc package: 10 MiB. -/
def MaxMessageSize : Nat := 10 * 1024 * 1024

/-- Big-endian 4-byte encoding of a `uint32` value, as produced by
`binary.BigEndian.PutUint32`. -/
def be32 (n : Nat) : List Nat :=
  [n / 2 ^ 24 % 256, n / 2 ^ 16 % 256, n / 2 ^ 8 % 256, n % 256]

/-- Big-endian 4-byte decoding, as computed by `binary.BigEndian.Uint32`
on a 4-byte slice. -/
def be32val (b₀ b₁ b₂ b₃ : Nat) : Nat :=
  b₀ * 2 ^ 24 + b₁ * 2 ^ 16 + b₂ * 2 ^ 8 + b₃

/-- `MessageWriter.WriteMessage`: writes a 4-byte big-endian length
followed by the payload.  Go converts `len(data)` (an `int`) to `uint32`,
which reduces it modulo `2^32`.  The writer performs no size validation
and, absent I/O errors (the pure model has none), always succeeds,
producing these bytes on the pipe. -/
def writeMessage (data : List Nat) : List Nat :=
  be32 (data.length % 2 ^ 32) ++ data

/-- Errors `MessageReader.ReadMessage` can return, one constructor per
`return nil, err` site in the Go source.  `eof` is the distinguished
"peer closed cleanly" result (EOF on the length prefix with no bytes
read); `shortLen` is a short read inside the length prefix;
`zeroLength` and `messageTooLarge` are the explicit validation errors;
`shortPayload` is a short read inside the payload. -/
inductive ReadErr where
  | eof
  | shortLen
  | zeroLength
  | messageTooLarge
  | shortPayload
  deriving DecidableEq, Repr

/-- `MessageReader.ReadMessage` on a byte stream: reads the 4-byte
length via `io.ReadFull` (EOF when the stream is empty, an error on a
short read), rejects zero and over-`MaxMessageSize` lengths, then reads
exactly that many payload bytes.  Returns the payload together with the
unconsumed remainder of the stream. -/
def readMessage (stream : List Nat) : Except ReadErr (List Nat × List Nat) :=
  match stream with
  | [] => .error .eof
  | b₀ :: rest₀ =>
    match rest₀ with
    | b₁ :: b₂ :: b₃ :: rest =>
      let msgLen := be32val b₀ b₁ b₂ b₃
      if msgLen = 0 then .error .zeroLength
      else if msgLen > MaxMessageSize then .error .messageTooLarge
      else if rest.length < msgLen then .error .shortPayload
      else .ok (rest.take msgLen, rest.drop msgLen)
    | _ => .error .shortLen

/-! ### Machine-integer wrapping helpers

Go's fixed-width signed integers wrap silently on overflow and convert by
truncation.  `wrap16`/`wrap32` map an unbounded `Int` to the value of the
corresponding two's-complement conversion `int16(·)` / `int32(·)`.
Go's integer division truncates toward zero, which is `Int.tdiv`. -/

/-- Two's-complement wrap to a signed 16-bit value (Go `int16(x)`). -/
def wrap16 (z : Int) : Int := (z + 2 ^ 15) % 2 ^ 16 - 2 ^ 15

/-- Two's-complement wrap to a signed 32-bit value (Go `int32(x)`). -/
def wrap32 (z : Int) : Int := (z + 2 ^ 31) % 2 ^ 32 - 2 ^ 31

/-! ### Resampler and VAD (`services/agora_bot.go`) -/

/-- One iteration of the `upsample16to24` loop (`agora_bot.go` lines
387–404), for loop index `i`: write the input sample at `3i/2`, then,
bounds permitting, the `(x[i]·1 + x[i+1]·2)/3` interpolant at `3i/2 + 1`
and — on even `i` — the `(x[i]·1 + x[i+1]·1)/2` interpolant at
`3i/2 + 2`.  Every arithmetic step carries the Go conversions
explicitly: `int32` intermediates (`wrap32`), Go's truncating division
(`Int.tdiv`), and the `int16(...)` conversion (`wrap16`). -/
def upsampleStep (input : List Int) (outputLen : Nat) (out : List Int) (i : Nat) : List Int :=
  let outputIdx := i * 3 / 2
  let out1 := out.set outputIdx (input.getD i 0)
  let out2 :=
    if outputIdx + 1 < outputLen then
      out1.set (outputIdx + 1)
        (wrap16 ((wrap32 (wrap32 (input.getD i 0 * 1) +
          wrap32 (input.getD (i + 1) 0 * 2))).tdiv 3))
    else out1
  if outputIdx + 2 < outputLen ∧ i % 2 = 0 then
    out2.set (outputIdx + 2)
      (wrap16 ((wrap32 (wrap32 (input.getD i 0 * 1) +
        wrap32 (input.getD (i + 1) 0 * 1))).tdiv 2))
  else out2

/-- `upsample16to24` from `agora_bot.go`: linear 16 kHz → 24 kHz
interpolation.  The output slice is allocated as `(inputLen * 3) / 2`
zeroed samples (Go integer division), the loop runs `i` from 0 to
`inputLen - 2`, and the final output slot is overwritten with the last
input sample. -/
def upsample16to24 (input : List Int) : List Int :=
  let inputLen := input.length
  let outputLen := inputLen * 3 / 2
  let out1 := (List.range (inputLen - 1)).foldl (upsampleStep input outputLen)
    (List.replicate outputLen (0 : Int))
  if 0 < inputLen then out1.set (outputLen - 1) (input.getD (inputLen - 1) 0) else out1

/-- The loop iteration without the `int32`/`int16` wrapping steps:
exact integer arithmetic with Go's truncating division.  Used to state
that the real resampler never overflows (claim C9). -/
def upsampleStepExact (input : List Int) (outputLen : Nat) (out : List Int) (i : Nat) :
    List Int :=
  let outputIdx := i * 3 / 2
  let out1 := out.set outputIdx (input.getD i 0)
  let out2 :=
    if outputIdx + 1 < outputLen then
      out1.set (outputIdx + 1) ((input.getD i 0 * 1 + input.getD (i + 1) 0 * 2).tdiv 3)
    else out1
  if outputIdx + 2 < outputLen ∧ i % 2 = 0 then
    out2.set (outputIdx + 2) ((input.getD i 0 * 1 + input.getD (i + 1) 0 * 1).tdiv 2)
  else out2

/-- The resampler with exact (non-wrapping) interpolation arithmetic. -/
def upsample16to24exact (input : List Int) : List Int :=
  let inputLen := input.length
  let outputLen := inputLen * 3 / 2
  let out1 := (List.range (inputLen - 1)).foldl (upsampleStepExact input outputLen)
    (List.replicate outputLen (0 : Int))
  if 0 < inputLen then out1.set (outputLen - 1) (input.getD (inputLen - 1) 0) else out1

/-- Sum-of-squares mean of a frame, as computed by `isFrameSilent`:
`sum += int64(sample) * int64(sample)` then `rms := sum / int64(len)`.
`int64` cannot overflow for any realistic frame (a 10 ms frame has 160
samples; `160 · 32768² < 2^63`), so plain `Int` arithmetic is the exact
semantics; the division truncates (`tdiv`), and the sum is non-negative
so this agrees with Euclidean division. -/
def meanSquare (samples : List Int) : Int :=
  if samples.length = 0 then 0
  else (samples.foldl (fun sum s => sum + s * s) 0).tdiv samples.length

/-- `isFrameSilent` from `agora_bot.go`: returns whether the frame is
below the fixed threshold 100, together with the mean-square value.
(The audio callback only uses the second component and compares it
against the bot's `rmsThreshold` field.) -/
def isFrameSilent (samples : List Int) : Bool × Int :=
  if samples.length = 0 then (true, 0)
  else
    let rms := meanSquare samples
    (rms < 100, rms)

/-- Decode little-endian PCM16 bytes to `int16` samples, as the audio
callback does with `int16(buf[2i]) | int16(buf[2i+1])<<8`.  For a low
byte `lo ∈ [0,255]` and high byte `hi ∈ [0,255]`, the Go expression
equals `wrap16 (lo + 256·hi)`: `int16(hi) << 8` wraps to a multiple of
256 in `[-32768, 32512]`, and bitwise-or with the low byte (whose bits
occupy the low 8 positions, which are zero in the shifted value) is
addition that cannot cross a wrap boundary. -/
def decodePCM16LE (buf : List Nat) : List Int :=
  (List.range (buf.length / 2)).map (fun i =>
    wrap16 ((buf.getD (2 * i) 0 : Int) + 256 * (buf.getD (2 * i + 1) 0 : Int)))

/-- Encode `int16` samples to little-endian PCM16 bytes, as the audio
callback does with `byte(sample)` and `byte(sample >> 8)` (arithmetic
shift, i.e. floor division by 256; `byte(·)` keeps the low 8 bits). -/
def pcm16leBytes (samples : List Int) : List Nat :=
  (samples.map (fun s => [(s % 256).toNat, (s / 256 % 256).toNat])).flatten

/-- Commands sent over the Anam WebSocket by the audio path.  `voice`
carries the PCM16 bytes (the wire format base64-encodes them inside a
JSON object; base64 is injective, so the bytes identify the command). -/
inductive AnamCmd where
  | voice (audio : List Nat)
  | voiceEnd
  deriving DecidableEq, Repr

/-- The VAD/forwarding state of `AgoraBot` — the fields of the Go struct
touched by the `OnPlaybackAudioFrameBeforeMixing` callback.  Time is an
abstract `Nat` tick. -/
structure VadState where
  audioBuffer : List (Option (List Nat))
  bufferIndex : Nat
  sendingAudio : Bool
  isSpeaking : Bool
  silenceFrames : Nat
  frameCount : Nat
  rmsThreshold : Int
  lastAudioTime : Nat
  deriving DecidableEq, Repr

/-- The state `NewAgoraBot` initializes: a 10-slot nil ring buffer,
threshold 100, not sending, `lastAudioTime = now`. -/
def initBotState (now : Nat) : VadState :=
  { audioBuffer := List.replicate 10 none
    bufferIndex := 0
    sendingAudio := false
    isSpeaking := false
    silenceFrames := 0
    frameCount := 0
    rmsThreshold := 100
    lastAudioTime := now }

/-- One invocation of the `OnPlaybackAudioFrameBeforeMixing` callback for
the target uid (`agora_bot.go` lines 178–280), returning the updated bot
state and the Anam commands emitted, in order.  Mirrors the source:
decode the buffer, compute the mean-square, upsample, re-encode, store
the frame in the ring buffer and advance the index, then branch on
voice detection; at onset, flush every non-nil ring slot starting at the
(already advanced) index before sending the current frame. -/
def processFrame (b : VadState) (buffer : List Nat) (now : Nat) : VadState × List AnamCmd :=
  let inputSamples := decodePCM16LE buffer
  let rms := (isFrameSilent inputSamples).2
  let outputSamples := upsample16to24 inputSamples
  let outputBytes := pcm16leBytes outputSamples
  let audioBuffer := b.audioBuffer.set b.bufferIndex (some outputBytes)
  let bufferIndex := (b.bufferIndex + 1) % audioBuffer.length
  let voiceDetected := rms > b.rmsThreshold
  if voiceDetected then
    let preroll :=
      if b.sendingAudio then []
      else
        (List.range audioBuffer.length).filterMap (fun i =>
          (audioBuffer.getD ((bufferIndex + i) % audioBuffer.length) none).map AnamCmd.voice)
    ({ b with
        audioBuffer := audioBuffer
        bufferIndex := bufferIndex
        sendingAudio := true
        isSpeaking := true
        silenceFrames := 0
        lastAudioTime := now
        frameCount := b.frameCount + 1 },
     preroll ++ [AnamCmd.voice outputBytes])
  else if b.sendingAudio then
    if b.silenceFrames + 1 < 50 then
      ({ b with
          audioBuffer := audioBuffer
          bufferIndex := bufferIndex
          silenceFrames := b.silenceFrames + 1
          frameCount := b.frameCount + 1 },
       [AnamCmd.voice outputBytes])
    else
      ({ b with
          audioBuffer := audioBuffer
          bufferIndex := bufferIndex
          sendingAudio := false
          isSpeaking := false
          silenceFrames := 0
          frameCount := 0 },
       [AnamCmd.voiceEnd])
  else
    ({ b with audioBuffer := audioBuffer, bufferIndex := bufferIndex }, [])

/-- Process a sequence of timestamped frames, concatenating the emitted
commands. -/
def processFrames (b : VadState) (frames : List (List Nat × Nat)) : VadState × List AnamCmd :=
  frames.foldl (fun acc f =>
    let r := processFrame acc.1 f.1 f.2
    (r.1, acc.2 ++ r.2)) (b, [])

/-- `AgoraBot.GetIdleDuration`: `time.Since(b.lastAudioTime)`. -/
def getIdleDuration (b : VadState) (now : Nat) : Nat := now - b.lastAudioTime

/-- Test vector: a 10 ms-style frame of 4 zero samples (PCM16LE bytes);
its mean-square is 0. -/
def silentFrame : List Nat := [0, 0, 0, 0, 0, 0, 0, 0]

/-- Test vector: a frame of 4 samples of value 100 (PCM16LE bytes); its
mean-square is 10000, above the threshold 100. -/
def voicedFrame : List Nat := [100, 0, 100, 0, 100, 0, 100, 0]

/-- Test vector: a frame of 4 samples of value `k` (PCM16LE bytes, for
`k ≤ 127`); its mean-square is `k²`, sub-threshold for `k ≤ 10`.
Distinct values let the pre-roll emission order be observed. -/
def toneFrame (k : Nat) : List Nat := [k, 0, k, 0, k, 0, k, 0]

/-! ### Child orchestrator run loop (`services/bot_worker.go`, `BotWorker.Run`) -/

/-- The three termination triggers of the `BotWorker.Run` select loop. -/
inductive Trigger where
  | parentStop
  | targetLeft
  | idleTimeout
  deriving DecidableEq, Repr

/-- The set of select cases that are ready: `stopChan` closed,
`TargetLeftChan()` closed, or an idle tick whose measured idle duration
exceeds the timeout (a tick with idle duration within the timeout
re-enters the loop and terminates nothing). Listed in the textual order
of the `select` cases. -/
def pendingTriggers (stopClosed targetLeftClosed idleExceeded : Bool) : List Trigger :=
  (if stopClosed then [Trigger.parentStop] else []) ++
    (if targetLeftClosed then [Trigger.targetLeft] else []) ++
      (if idleExceeded then [Trigger.idleTimeout] else [])

/-- The trigger the run loop acts on.  Go's `select` statement, given
several ready cases, picks one by uniform pseudo-random selection; the
`choice` parameter is the scheduler's pick (reduced modulo the number of
ready cases).  `none` means no case is ready and the loop blocks. -/
def runLoopChoice (stopClosed targetLeftClosed idleExceeded : Bool) (choice : Nat) : Option Trigger :=
  let p := pendingTriggers stopClosed targetLeftClosed idleExceeded
  p[choice % p.length]?

/-- The error code each trigger surfaces to the parent via
`sendError(..., fatal=true)`.  Parent stop surfaces no error (the loop
only logs and cleans up). -/
def surfacedErrorCode : Trigger → Option String
  | Trigger.parentStop => none
  | Trigger.targetLeft => some "TARGET_LEFT"
  | Trigger.idleTimeout => some "IDLE_TIMEOUT"

/-- The priority order claimed by the spec: parent-stop > target-left >
idle (lower rank = higher priority). -/
def triggerRank : Trigger → Nat
  | Trigger.parentStop => 0
  | Trigger.targetLeft => 1
  | Trigger.idleTimeout => 2

/-- Modelled from the spec: the trigger the spec says should win —
the highest-priority pending one. -/
def highestPriorityPending (stopClosed targetLeftClosed idleExceeded : Bool) : Option Trigger :=
  (pendingTriggers stopClosed targetLeftClosed idleExceeded).foldr
    (fun t acc => match acc with
      | none => some t
      | some u => if triggerRank t ≤ triggerRank u then some t else some u)
    none

/-! ### Parent session manager (`BotProcessManager.StopSession`,
`src/unnamed/part_001`) -/

/-- The per-process handle state relevant to `StopSession`.
`hasTimer` records whether `timeoutTimer` is non-nil (it is set by
`StartSession` right after spawning). -/
structure ProcHandle where
  hasTimer : Bool
  deriving DecidableEq, Repr

/-- The manager's `processes` map (`taskID → process`), as an
association list with Go-map lookup semantics (first match wins;
insertion prepends). -/
structure ManagerState where
  processes : List (String × ProcHandle)
  deriving DecidableEq, Repr

/-- Observable side effects of `StopSession`, in program order. -/
inductive StopEffect where
  | cancelTimer
  | writeStopSession (taskID reason : String)
  | closeShutdownChan
  | waitForExit
  | killProcess
  | closeStdin
  | closeStdout
  | closeStderr
  deriving DecidableEq, Repr

/-- Remove a key from an association list (Go `delete(m, k)`). -/
def eraseKey (l : List (String × ProcHandle)) (k : String) : List (String × ProcHandle) :=
  l.filter (fun p => p.1 != k)

/-- `BotProcessManager.StopSession`: looks up the task; if absent,
returns the "no session found" error with the manager state unchanged.
Otherwise removes the entry, stops the timeout timer (when set), writes
a `STOP_SESSION` IPC message with reason "Requested by parent", closes
the shutdown channel, waits up to 5 s for the child to exit and kills
it on timeout (`exitsWithin5s` is the oracle for the child's behavior),
and closes the three pipes.  The result is the new manager state and
either the not-found error or the ordered effect trace. -/
def stopSession (m : ManagerState) (taskID : String) (exitsWithin5s : Bool) :
    ManagerState × Except String (List StopEffect) :=
  match m.processes.lookup taskID with
  | none => (m, .error ("no session found for task " ++ taskID))
  | some proc =>
    (⟨eraseKey m.processes taskID⟩,
      .ok ((if proc.hasTimer then [StopEffect.cancelTimer] else []) ++
        [StopEffect.writeStopSession taskID "Requested by parent",
         StopEffect.closeShutdownChan, StopEffect.waitForExit] ++
        (if exitsWithin5s then [] else [StopEffect.killProcess]) ++
        [StopEffect.closeStdin, StopEffect.closeStdout, StopEffect.closeStderr]))

/-! ### Start handler, dedup registry and uid assignment
(`ServiceRouter.PalabraStart`, child-process variant in
`services/agora_bot.go`) -/

/-- A translation-start request (`PalabraStartRequest`). -/
structure StartRequest where
  channel : String
  sourceUID : String
  sourceLanguage : String
  targetLanguages : List String
  deriving DecidableEq, Repr

/-- A registry entry (`TaskInfo`): task id, stream list (uid, language),
source uid, channel, language. -/
structure TaskInfo where
  taskID : String
  streams : List (String × String)
  sourceUID : String
  channel : String
  language : String
  deriving DecidableEq, Repr

/-- The handler's global mutable state: the dedup registry
`activeTasksByKey` and the per-channel avatar-uid counters
`channelAnamCounters`, both Go maps modelled as association lists
(lookup finds the most recent binding; assignment prepends). -/
structure RegistryState where
  activeTasksByKey : List (String × TaskInfo)
  channelAnamCounters : List (String × Nat)
  deriving DecidableEq, Repr

/-- The uid triple of one spawned avatar session. -/
structure SessionUIDs where
  anamUID : Nat
  botUID : Nat
  palabraUID : Nat
  deriving DecidableEq, Repr

/-- Result of the external translator call (`POST /agora/translations`),
an oracle to the handler. -/
structure PalabraAPIResult where
  ok : Bool
  taskID : String
  deriving DecidableEq, Repr

/-- What one `PalabraStart` invocation does: whether the external
translator HTTP POST was performed, the exact HTTP response body
written, the updated global state, and the uid triples of the child
sessions spawned. -/
structure StartOutcome where
  calledPalabraAPI : Bool
  body : String
  state : RegistryState
  sessions : List SessionUIDs
  deriving DecidableEq, Repr

/-- Dedup key `"{channel}:{sourceUid}:{targetLanguage}"`. -/
def taskKey (channel sourceUID lang : String) : String :=
  channel ++ ":" ++ sourceUID ++ ":" ++ lang

/-- JSON string literal.  The inputs occurring in this development are
alphanumeric, so quoting needs no escapes. -/
def jsonStr (s : String) : String := "\"" ++ s ++ "\""

/-- Go `json.Marshal` of a `[]PalabraStreamInfo` value: struct fields in
declaration order (`uid`, `language`). -/
def streamsJson (streams : List (String × String)) : String :=
  "[" ++ String.intercalate ","
    (streams.map (fun p =>
      "\x7b" ++ jsonStr "uid" ++ ":" ++ jsonStr p.1 ++ "," ++
        jsonStr "language" ++ ":" ++ jsonStr p.2 ++ "\x7d")) ++ "]"

/-- The success response body of a fresh start:
`respondWithJSON(w, 200, PalabraStartResponse{Success:true, TaskID, Streams})`.
Go marshals struct fields in declaration order (`success`, `taskId`,
`streams`); the empty `Error` field is dropped by `omitempty`. -/
def startSuccessBody (taskID : String) (streams : List (String × String)) : String :=
  "\x7b" ++ jsonStr "success" ++ ":true," ++ jsonStr "taskId" ++ ":" ++ jsonStr taskID ++
    "," ++ jsonStr "streams" ++ ":" ++ streamsJson streams ++ "\x7d"

/-- The dedup-hit response body:
`respondWithJSON(w, 200, map[string]interface{}{"ok": true, "data": map[...]{"taskId": ..., "streams": ...}})`.
Go marshals map keys in sorted order: `data` before `ok`, and inside,
`streams` before `taskId`. -/
def dedupBody (taskID : String) (streams : List (String × String)) : String :=
  "\x7b" ++ jsonStr "data" ++ ":\x7b" ++ jsonStr "streams" ++ ":" ++ streamsJson streams ++
    "," ++ jsonStr "taskId" ++ ":" ++ jsonStr taskID ++ "\x7d," ++ jsonStr "ok" ++ ":true\x7d"

/-- An error response body (`respondWithError`). -/
def errorBody (msg : String) : String :=
  "\x7b" ++ jsonStr "error" ++ ":" ++ jsonStr msg ++ "\x7d"

/-- `getNextAnamUID`: per-channel monotone counter starting at 4000.
A missing channel is initialized to 4000 first; the current value is
returned and the counter incremented. -/
def getNextAnamUID (counters : List (String × Nat)) (channel : String) :
    Nat × List (String × Nat) :=
  match counters.lookup channel with
  | none => (4000, (channel, 4001) :: counters)
  | some c => (c, (channel, c + 1) :: counters)

/-- The avatar-mode loop of `PalabraStart` (`for i, stream := range
streams`): for the `i`-th target, allocate the next avatar uid for the
channel, replace the stream's uid (originally the translator uid
`3000 + i`) with the avatar uid, and spawn a child session with bot uid
`4500 + i` and translator uid `3000 + i`.  Token minting and the child
spawn itself are out-of-scope external services modelled as succeeding.
The in-place `streams[i].UID = anamUID` update is rendered by rebuilding
the stream list in loop order. -/
def anamLoopStep (channel : String)
    (acc : List (String × String) × List (String × Nat) × List SessionUIDs)
    (p : Nat × String) : List (String × String) × List (String × Nat) × List SessionUIDs :=
  let r := getNextAnamUID acc.2.1 channel
  (acc.1 ++ [(Nat.repr r.1, p.2)], r.2, acc.2.2 ++ [⟨r.1, 4500 + p.1, 3000 + p.1⟩])

/-- The avatar-mode loop folds `anamLoopStep` over the indexed target
languages, starting from empty stream/session accumulators and the
current counters. -/
def anamLoop (channel : String) (counters : List (String × Nat)) (langs : List String) :
    List (String × String) × List (String × Nat) × List SessionUIDs :=
  langs.enum.foldl (anamLoopStep channel) ([], counters, [])

/-- `ServiceRouter.PalabraStart` (child-process variant): validate
required fields; scan the target languages for an existing dedup entry
and return it without any external call on a hit; otherwise build the
translator streams (`uid = 3000 + i`), perform the external translator
POST (its outcome is the `api` oracle), run the avatar-uid assignment
loop when avatar mode is enabled, store a `TaskInfo` under every target
language's dedup key, and return the success body.  Credential and
token minting are out-of-scope services modelled as succeeding. -/
def palabraStart (st : RegistryState) (req : StartRequest) (api : PalabraAPIResult)
    (enableAnam : Bool) : StartOutcome :=
  if req.channel = "" ∨ req.sourceUID = "" ∨ req.sourceLanguage = "" ∨
      req.targetLanguages = [] then
    { calledPalabraAPI := false, body := errorBody "Missing required fields"
      state := st, sessions := [] }
  else
    match req.targetLanguages.findSome?
        (fun lang => st.activeTasksByKey.lookup (taskKey req.channel req.sourceUID lang)) with
    | some info =>
      { calledPalabraAPI := false, body := dedupBody info.taskID info.streams
        state := st, sessions := [] }
    | none =>
      if api.ok = false then
        { calledPalabraAPI := true, body := errorBody "Palabra API error"
          state := st, sessions := [] }
      else
        let r :=
          if enableAnam then anamLoop req.channel st.channelAnamCounters req.targetLanguages
          else (req.targetLanguages.enum.map (fun p => (Nat.repr (3000 + p.1), p.2)),
            st.channelAnamCounters, [])
        { calledPalabraAPI := true
          body := startSuccessBody api.taskID r.1
          state :=
            { activeTasksByKey := req.targetLanguages.foldl (fun acc lang =>
                (taskKey req.channel req.sourceUID lang,
                  { taskID := api.taskID, streams := r.1, sourceUID := req.sourceUID
                    channel := req.channel, language := lang }) :: acc)
                st.activeTasksByKey
              channelAnamCounters := r.2.1 }
          sessions := r.2.2 }

theorem be32val_be32 (n : Nat) (h : n < 2 ^ 32) :
    be32val (n / 2 ^ 24 % 256) (n / 2 ^ 16 % 256) (n / 2 ^ 8 % 256) (n % 256) = n := by
  unfold be32val
  omega

theorem readMessage_frame (len : Nat) (data rest : List Nat)
    (hlen : data.length = len) (h0 : 0 < len) (h1 : len ≤ MaxMessageSize) :
    readMessage (be32 len ++ data ++ rest) = .ok (data, rest) := by
  have hlt : len < 2 ^ 32 := by
    have : MaxMessageSize < 2 ^ 32 := by decide
    omega
  have hv := be32val_be32 len hlt
  simp only [be32, readMessage, List.cons_append, List.nil_append, hv]
  rw [if_neg (by omega), if_neg (by omega), if_neg (by simp [hlen])]
  simp [hlen, List.take_append_of_le_length, List.drop_append_of_le_length]

/-- Generic invariant preservation for a left fold. -/
theorem foldl_inv {α β : Type} (P : α → Prop) (f : α → β → α) :
    ∀ (l : List β) (out : α), (∀ out i, P out → i ∈ l → P (f out i)) → P out →
      P (l.foldl f out) := by
  intro l
  induction l with
  | nil => intro out _ h; exact h
  | cons x xs ih =>
    intro out hstep h
    exact ih (f out x) (fun o i ho hi => hstep o i ho (List.mem_cons_of_mem x hi))
      (hstep out x h (List.mem_cons_self x xs))

/-- The second component of `isFrameSilent` is the mean-square value
(also on the empty frame, where both are 0). -/
theorem isFrameSilent_snd (s : List Int) : (isFrameSilent s).2 = meanSquare s := by
  unfold isFrameSilent meanSquare
  split <;> simp_all

/-- C5.  For every payload accepted by the framing (the length fits the
4-byte prefix and the reader's 10 MiB bound, and is non-zero), reading
the writer's output returns exactly that payload and consumes exactly
the frame (the total function `readMessage` terminates by construction);
and the reader returns the explicit `zeroLength` error on a zero length
prefix and the explicit `messageTooLarge` error on a prefix above
10 MiB, for any trailing bytes. -/
theorem c5_framing_roundtrip (data rest tail : List Nat) (n : Nat)
    (h0 : 0 < data.length) (h1 : data.length ≤ MaxMessageSize)
    (h2 : MaxMessageSize < n) (h3 : n < 2 ^ 32) :
    readMessage (writeMessage data ++ rest) = .ok (data, rest) ∧
      readMessage (be32 0 ++ tail) = .error .zeroLength ∧
      readMessage (be32 n ++ tail) = .error .messageTooLarge := by
  refine ⟨?_, ?_, ?_⟩
  · have hmod : data.length % 2 ^ 32 = data.length := by
      have : MaxMessageSize < 2 ^ 32 := by decide
      omega
    have h := readMessage_frame data.length data rest rfl h0 h1
    unfold writeMessage
    rw [hmod, List.append_assoc]
    exact h
  · simp [be32, readMessage, be32val]
  · have hv := be32val_be32 n h3
    simp only [be32, readMessage, List.cons_append, hv]
    rw [if_neg (by omega), if_pos (by omega)]

/-- Witness for C5 at a concrete frame. -/
theorem c5_framing_roundtrip_witness :
    readMessage (writeMessage [7, 8] ++ [9]) = .ok ([7, 8], [9]) ∧
      readMessage (be32 0 ++ [1]) = .error .zeroLength ∧
      readMessage (be32 (MaxMessageSize + 1) ++ [1]) = .error .messageTooLarge :=
  c5_framing_roundtrip [7, 8] [9] [1] (MaxMessageSize + 1)
    (by decide) (by decide) (by decide) (by decide)

/-- C10 counterexample.  The final clause of C10 — that every oversized
payload yields a frame the reader rejects — fails: a payload of
`2^32 + 1` bytes is truncated by the `uint32` length conversion to a
prefix of 1, and the reader then happily returns a 1-byte payload
instead of an error. -/
theorem c10_counterexample :
    readMessage (writeMessage (List.replicate (2 ^ 32 + 1) 0)) =
      .ok ([0], List.replicate (2 ^ 32) 0) := by
  have h := readMessage_frame 1 [0] (List.replicate (2 ^ 32) 0) rfl (by omega)
    (by norm_num [MaxMessageSize])
  rw [List.append_assoc, List.singleton_append] at h
  have hmod : (List.replicate (2 ^ 32 + 1) (0 : Nat)).length % 2 ^ 32 = 1 := by
    rw [List.length_replicate]; norm_num
  rw [writeMessage, hmod, List.replicate_succ]
  exact h

/-- C10 amended.  `WriteMessage` performs no payload-size validation:
for every byte slice it (successfully) writes a frame whose 4-byte
big-endian prefix is `len(data) mod 2^32` followed by the payload.  The
reader rejects the resulting frame for the empty payload (zero length)
and for every oversized payload shorter than `2^32` bytes
(`messageTooLarge`); an oversized payload whose length reduced modulo
`2^32` lands back inside `(0, 10 MiB]` instead yields a truncated
payload, not a rejection (see the counterexample). -/
theorem c10_writer_no_validation (data tail : List Nat) :
    writeMessage data = be32 (data.length % 2 ^ 32) ++ data ∧
      (data.length = 0 → readMessage (writeMessage data ++ tail) = .error .zeroLength) ∧
      (MaxMessageSize < data.length → data.length < 2 ^ 32 →
        readMessage (writeMessage data ++ tail) = .error .messageTooLarge) := by
  refine ⟨rfl, ?_, ?_⟩
  · intro h
    simp [writeMessage, h, be32, readMessage, be32val]
  · intro h1 h2
    have hmod : data.length % 2 ^ 32 = data.length := Nat.mod_eq_of_lt h2
    have hv := be32val_be32 data.length h2
    simp only [writeMessage, hmod, be32, readMessage, List.cons_append, List.append_assoc, hv]
    rw [if_neg (by omega), if_pos (by omega)]

/-- Witness for C10 amended: the empty payload's frame is rejected with
the zero-length error, and a frame of `MaxMessageSize + 1` bytes is
rejected as too large. -/
theorem c10_writer_no_validation_witness :
    readMessage (writeMessage [] ++ []) = .error .zeroLength ∧
      readMessage (writeMessage (List.replicate (MaxMessageSize + 1) 0) ++ []) =
        .error .messageTooLarge :=
  ⟨(c10_writer_no_validation [] []).2.1 rfl,
    (c10_writer_no_validation (List.replicate (MaxMessageSize + 1) 0) []).2.2
      (by rw [List.length_replicate]; omega)
      (by rw [List.length_replicate]; norm_num [MaxMessageSize])⟩

/-- C2 counterexample.  Parent stop and idle timeout are both pending,
yet the select (with scheduler pick 1) acts on the idle trigger, not the
higher-priority parent stop, so the error code surfaced is
`IDLE_TIMEOUT`, not the parent-stop outcome. -/
theorem c2_counterexample :
    runLoopChoice true false true 1 = some Trigger.idleTimeout ∧
      highestPriorityPending true false true = some Trigger.parentStop ∧
      surfacedErrorCode Trigger.idleTimeout ≠ surfacedErrorCode Trigger.parentStop := by
  decide

/-- C2 amended.  The run loop enforces no priority among simultaneously
pending triggers: the acted-on trigger is always one of the pending
ones, some pending trigger is always acted on, every pending trigger is
acted on under some scheduler choice (Go `select` chooses uniformly at
random among ready cases), and the code surfaced is determined by the
chosen trigger alone (`TARGET_LEFT`, `IDLE_TIMEOUT`, or none for parent
stop — the three outcomes are pairwise distinct). -/
theorem c2_no_priority (s t i : Bool) (c : Nat) :
    (∀ tr, runLoopChoice s t i c = some tr → tr ∈ pendingTriggers s t i) ∧
      (pendingTriggers s t i ≠ [] → ∃ tr, runLoopChoice s t i c = some tr) ∧
      (∀ tr ∈ pendingTriggers s t i, ∃ d, runLoopChoice s t i d = some tr) ∧
      (∀ tr tr', surfacedErrorCode tr = surfacedErrorCode tr' → tr = tr') := by
  refine ⟨?_, ?_, ?_, fun tr tr' h => by
    cases tr <;> cases tr' <;> simp_all [surfacedErrorCode]⟩
  · intro tr h
    exact List.getElem?_mem h
  · intro h
    have hl : 0 < (pendingTriggers s t i).length := List.length_pos.mpr h
    exact ⟨_, List.getElem?_eq_getElem (Nat.mod_lt c hl)⟩
  · intro tr htr
    obtain ⟨j, hj, hget⟩ := List.mem_iff_getElem.mp htr
    refine ⟨j, ?_⟩
    show (pendingTriggers s t i)[j % (pendingTriggers s t i).length]? = some tr
    rw [Nat.mod_eq_of_lt hj]
    rw [List.getElem?_eq_getElem hj, hget]

/-- Witness for C2 amended at a concrete pending set. -/
theorem c2_no_priority_witness :
    Trigger.idleTimeout ∈ pendingTriggers true false true :=
  (c2_no_priority true false true 1).1 Trigger.idleTimeout (by decide)

/-- Looking up a key just erased from the process map fails. -/
theorem lookup_eraseKey (l : List (String × ProcHandle)) (k : String) :
    (eraseKey l k).lookup k = none := by
  induction l with
  | nil => rfl
  | cons p rest ih =>
    unfold eraseKey at ih ⊢
    rw [List.filter_cons]
    by_cases h : p.1 = k
    · simp only [h, bne_self_eq_false, Bool.false_eq_true, if_false]
      exact ih
    · have hb : (p.1 != k) = true := bne_iff_ne.mpr h
      simp only [hb, if_true]
      rw [List.lookup_cons]
      have : (k == p.1) = false := beq_eq_false_iff_ne.mpr (fun hk => h hk.symm)
      simp only [this]
      exact ih

/-- C7.  `StopSession` on an absent task id returns the not-found error
and leaves the manager state untouched; on a present task it removes
the entry from the map (a subsequent lookup fails), and performs, in
order: cancel the hard-duration timer (when set), write the
`StopSession` IPC message, close the shutdown channel, wait up to 5 s
for process exit, kill the process if it did not exit, and close the
stdin, stdout and stderr pipes. -/
theorem c7_stop_session (m : ManagerState) (tid : String) (exits : Bool) :
    (m.processes.lookup tid = none →
        stopSession m tid exits = (m, .error ("no session found for task " ++ tid))) ∧
      (∀ proc, m.processes.lookup tid = some proc →
        stopSession m tid exits =
          (⟨eraseKey m.processes tid⟩,
            .ok ((if proc.hasTimer then [StopEffect.cancelTimer] else []) ++
              [StopEffect.writeStopSession tid "Requested by parent",
                StopEffect.closeShutdownChan, StopEffect.waitForExit] ++
              (if exits then [] else [StopEffect.killProcess]) ++
              [StopEffect.closeStdin, StopEffect.closeStdout, StopEffect.closeStderr])) ∧
          (stopSession m tid exits).1.processes.lookup tid = none) := by
  constructor
  · intro h
    unfold stopSession
    rw [h]
  · intro proc h
    unfold stopSession
    rw [h]
    exact ⟨rfl, lookup_eraseKey m.processes tid⟩

/-- Witness for C7 at a concrete one-entry manager. -/
theorem c7_stop_session_witness :
    stopSession ⟨[("t1", ⟨true⟩)]⟩ "t1" true =
      (⟨[]⟩, .ok [StopEffect.cancelTimer,
        StopEffect.writeStopSession "t1" "Requested by parent",
        StopEffect.closeShutdownChan, StopEffect.waitForExit,
        StopEffect.closeStdin, StopEffect.closeStdout, StopEffect.closeStderr]) := by
  have h := ((c7_stop_session ⟨[("t1", ⟨true⟩)]⟩ "t1" true).2 ⟨true⟩ (by decide)).1
  simpa [eraseKey] using h

/-- C3 counterexample.  A voiced frame at time 5 followed by a silent
tail frame at time 9: the tail frame is transmitted to the avatar, yet
`lastAudioTime` stays 5, so the idle duration at time 9 is 4 — the code
measures time since the last voiced frame, not since the last
transmitted frame as the claim states. -/
theorem c3_counterexample :
    (processFrame (processFrame (initBotState 0) voicedFrame 5).1 silentFrame 9).2 =
        [AnamCmd.voice (pcm16leBytes (upsample16to24 (decodePCM16LE silentFrame)))] ∧
      (processFrame (processFrame (initBotState 0) voicedFrame 5).1 silentFrame 9).1.lastAudioTime
        = 5 ∧
      getIdleDuration (processFrame (processFrame (initBotState 0) voicedFrame 5).1
        silentFrame 9).1 9 = 4 := by
  decide

/-- C3 amended.  `last_audio_time` is updated exactly on voiced frames
(onset and speech states): a frame whose mean-square exceeds the
threshold sets it to the current time; any sub-threshold frame leaves
it unchanged, even a silence-tail frame that is transmitted to the
avatar.  The idle duration polled by the orchestrator therefore
measures time since the last voiced transmitted frame. -/
theorem c3_idle_timestamp (b : VadState) (buf : List Nat) (now : Nat) :
    (meanSquare (decodePCM16LE buf) > b.rmsThreshold →
        (processFrame b buf now).1.lastAudioTime = now) ∧
      (¬ meanSquare (decodePCM16LE buf) > b.rmsThreshold →
        (processFrame b buf now).1.lastAudioTime = b.lastAudioTime) ∧
      (¬ meanSquare (decodePCM16LE buf) > b.rmsThreshold → b.sendingAudio = true →
        b.silenceFrames + 1 < 50 →
        (processFrame b buf now).2 =
          [AnamCmd.voice (pcm16leBytes (upsample16to24 (decodePCM16LE buf)))]) := by
  refine ⟨?_, ?_, ?_⟩
  · intro hv
    simp [processFrame, isFrameSilent_snd, hv]
  · intro hv
    by_cases hsend : b.sendingAudio
    · by_cases hcnt : b.silenceFrames + 1 < 50 <;>
        simp [processFrame, isFrameSilent_snd, hv, hsend, hcnt]
    · simp [processFrame, isFrameSilent_snd, hv, hsend]
  · intro hv hsend hcnt
    simp [processFrame, isFrameSilent_snd, hv, hsend, hcnt]

/-- Witness for C3 amended: a voiced frame at time 5 sets
`lastAudioTime` to 5. -/
theorem c3_idle_timestamp_witness :
    (processFrame (initBotState 0) voicedFrame 5).1.lastAudioTime = 5 :=
  (c3_idle_timestamp (initBotState 0) voicedFrame 5).1 (by decide)

/-- `wrap16` is the identity on values already in `int16` range. -/
theorem wrap16_eq_self (z : Int) (h1 : -32768 ≤ z) (h2 : z ≤ 32767) : wrap16 z = z := by
  unfold wrap16
  omega

/-- `wrap32` is the identity on values already in `int32` range. -/
theorem wrap32_eq_self (z : Int) (h1 : -2147483648 ≤ z) (h2 : z ≤ 2147483647) :
    wrap32 z = z := by
  unfold wrap32
  omega

/-- Truncating division by 3 of a sum of three `int16`-range values
stays in `int16` range. -/
theorem tdiv3_int16 (a : Int) (h1 : -98304 ≤ a) (h2 : a ≤ 98301) :
    -32768 ≤ a.tdiv 3 ∧ a.tdiv 3 ≤ 32767 := by
  cases a with
  | ofNat m =>
    have hr : (Int.ofNat m).tdiv 3 = Int.ofNat (m / 3) := rfl
    rw [hr, Int.ofNat_eq_natCast] at *
    omega
  | negSucc m =>
    have hr : (Int.negSucc m).tdiv 3 = -Int.ofNat ((m + 1) / 3) := rfl
    have hm : (Int.negSucc m) = -(m + 1 : Int) := Int.negSucc_eq m
    rw [hr, Int.ofNat_eq_natCast]
    rw [hm] at h1 h2
    omega

/-- Truncating division by 2 of a sum of two `int16`-range values stays
in `int16` range. -/
theorem tdiv2_int16 (a : Int) (h1 : -65536 ≤ a) (h2 : a ≤ 65534) :
    -32768 ≤ a.tdiv 2 ∧ a.tdiv 2 ≤ 32767 := by
  cases a with
  | ofNat m =>
    have hr : (Int.ofNat m).tdiv 2 = Int.ofNat (m / 2) := rfl
    rw [hr, Int.ofNat_eq_natCast] at *
    omega
  | negSucc m =>
    have hr : (Int.negSucc m).tdiv 2 = -Int.ofNat ((m + 1) / 2) := rfl
    have hm : (Int.negSucc m) = -(m + 1 : Int) := Int.negSucc_eq m
    rw [hr, Int.ofNat_eq_natCast]
    rw [hm] at h1 h2
    omega

/-- Every `getD`-read from an `int16`-valued sample list is in range
(the out-of-bounds default 0 included). -/
theorem getD_int16 (input : List Int) (h : ∀ s ∈ input, -32768 ≤ s ∧ s ≤ 32767) (k : Nat) :
    -32768 ≤ input.getD k 0 ∧ input.getD k 0 ≤ 32767 := by
  by_cases hk : k < input.length
  · rw [List.getD_eq_getElem input 0 hk]
    exact h _ (List.getElem_mem hk)
  · rw [List.getD_eq_default input 0 (by omega)]
    norm_num

/-- On `int16`-valued input, the wrapped loop iteration computes the
exact interpolation arithmetic: no `int32` intermediate or `int16`
result ever wraps. -/
theorem upsampleStep_eq_exact (input : List Int) (outputLen : Nat) (out : List Int) (i : Nat)
    (h : ∀ s ∈ input, -32768 ≤ s ∧ s ≤ 32767) :
    upsampleStep input outputLen out i = upsampleStepExact input outputLen out i := by
  have ha := getD_int16 input h i
  have hb := getD_int16 input h (i + 1)
  have e1 : wrap16 ((wrap32 (wrap32 (input.getD i 0 * 1) +
      wrap32 (input.getD (i + 1) 0 * 2))).tdiv 3) =
      (input.getD i 0 * 1 + input.getD (i + 1) 0 * 2).tdiv 3 := by
    rw [wrap32_eq_self (input.getD i 0 * 1) (by omega) (by omega),
      wrap32_eq_self (input.getD (i + 1) 0 * 2) (by omega) (by omega),
      wrap32_eq_self (input.getD i 0 * 1 + input.getD (i + 1) 0 * 2) (by omega) (by omega)]
    have := tdiv3_int16 (input.getD i 0 * 1 + input.getD (i + 1) 0 * 2) (by omega) (by omega)
    exact wrap16_eq_self _ this.1 this.2
  have e2 : wrap16 ((wrap32 (wrap32 (input.getD i 0 * 1) +
      wrap32 (input.getD (i + 1) 0 * 1))).tdiv 2) =
      (input.getD i 0 * 1 + input.getD (i + 1) 0 * 1).tdiv 2 := by
    rw [wrap32_eq_self (input.getD i 0 * 1) (by omega) (by omega),
      wrap32_eq_self (input.getD (i + 1) 0 * 1) (by omega) (by omega),
      wrap32_eq_self (input.getD i 0 * 1 + input.getD (i + 1) 0 * 1) (by omega) (by omega)]
    have := tdiv2_int16 (input.getD i 0 * 1 + input.getD (i + 1) 0 * 1) (by omega) (by omega)
    exact wrap16_eq_self _ this.1 this.2
  unfold upsampleStep upsampleStepExact
  rw [e1, e2]

/-- The loop iteration preserves the list length. -/
theorem upsampleStep_length (input : List Int) (outputLen : Nat) (out : List Int) (i : Nat) :
    (upsampleStep input outputLen out i).length = out.length := by
  unfold upsampleStep
  dsimp only
  split_ifs <;> simp [List.length_set]

/-- The loop iteration only writes indices at least `3i/2`: any smaller
index is untouched. -/
theorem upsampleStep_getElem?_lt (input : List Int) (outputLen : Nat) (out : List Int)
    (i j : Nat) (hj : j < i * 3 / 2) :
    (upsampleStep input outputLen out i)[j]? = out[j]? := by
  unfold upsampleStep
  dsimp only
  split_ifs <;>
    simp only [List.getElem?_set_ne (by omega : ¬ i * 3 / 2 + 2 = j),
      List.getElem?_set_ne (by omega : ¬ i * 3 / 2 + 1 = j),
      List.getElem?_set_ne (by omega : ¬ i * 3 / 2 = j)]

/-- The loop output has the allocated length `(inputLen * 3) / 2`, for
both the wrapped and the exact variant of the step. -/
theorem length_upsample16to24 (x : List Int) :
    (upsample16to24 x).length = x.length * 3 / 2 := by
  unfold upsample16to24
  dsimp only
  have h := foldl_inv (fun out : List Int => out.length = x.length * 3 / 2)
    (upsampleStep x (x.length * 3 / 2)) (List.range (x.length - 1))
    (List.replicate (x.length * 3 / 2) 0)
    (fun out i ho _ => by
      have ho2 : out.length = x.length * 3 / 2 := ho
      show (upsampleStep x (x.length * 3 / 2) out i).length = x.length * 3 / 2
      rw [upsampleStep_length, ho2]) (by simp)
  split_ifs <;> simp [List.length_set, h]

/-- C6 counterexample.  For the odd-length input `[1, 2, 3]` the output
has `⌊3·3/2⌋ = 4` samples, not the claimed `⌈3·3/2⌉ = 5`: Go's integer
division floors, so the claimed ceiling formula is wrong for every
odd-length input. -/
theorem c6_counterexample :
    (upsample16to24 [1, 2, 3]).length = 4 ∧ (3 * 3 + 1) / 2 = 5 ∧
      ¬ (upsample16to24 [1, 2, 3]).length = (3 * 3 + 1) / 2 := by
  decide

/-- C6 amended.  For every non-empty input, `upsample16to24` returns
`⌊3·|x|/2⌋` samples (the floor, equal to the claimed ceiling only for
even `|x|`), and preserves the first and last samples exactly. -/
theorem c6_length_endpoints (x : List Int) (hx : 0 < x.length) :
    (upsample16to24 x).length = x.length * 3 / 2 ∧
      (upsample16to24 x).getD 0 0 = x.getD 0 0 ∧
      (upsample16to24 x).getD (x.length * 3 / 2 - 1) 0 = x.getD (x.length - 1) 0 := by
  have hlenfold :
      ((List.range (x.length - 1)).foldl (upsampleStep x (x.length * 3 / 2))
        (List.replicate (x.length * 3 / 2) 0)).length = x.length * 3 / 2 := by
    have h := foldl_inv (fun out : List Int => out.length = x.length * 3 / 2)
      (upsampleStep x (x.length * 3 / 2)) (List.range (x.length - 1))
      (List.replicate (x.length * 3 / 2) 0)
      (fun out i ho _ => by
        have ho2 : out.length = x.length * 3 / 2 := ho
        show (upsampleStep x (x.length * 3 / 2) out i).length = x.length * 3 / 2
        rw [upsampleStep_length, ho2]) (by simp)
    exact h
  refine ⟨length_upsample16to24 x, ?_, ?_⟩
  · -- first sample
    rcases Nat.lt_or_ge x.length 2 with h2 | h2
    · -- singleton input: the loop is empty and the tail write hits slot 0
      have hx1 : x.length = 1 := by omega
      unfold upsample16to24
      dsimp only
      rw [if_pos hx, hx1]
      simp [List.getD]
    · -- the loop's first iteration writes slot 0; later ones never do
      have hout : 3 ≤ x.length * 3 / 2 := by omega
      have hrange : List.range (x.length - 1) =
          0 :: (List.range (x.length - 2)).map Nat.succ := by
        have : x.length - 1 = (x.length - 2) + 1 := by omega
        rw [this, List.range_succ_eq_map]
      unfold upsample16to24
      dsimp only
      rw [if_pos hx]
      set out1 := upsampleStep x (x.length * 3 / 2) (List.replicate (x.length * 3 / 2) 0) 0
        with hout1
      have h0 : out1[0]? = some (x.getD 0 0) := by
        rw [hout1]
        unfold upsampleStep
        dsimp only
        have hl : (List.replicate (x.length * 3 / 2) (0 : Int)).length = x.length * 3 / 2 := by
          simp
        split_ifs <;>
          simp only [List.getElem?_set_ne (by omega : ¬ 0 * 3 / 2 + 2 = 0),
            List.getElem?_set_ne (by omega : ¬ 0 * 3 / 2 + 1 = 0),
            show (0 : Nat) * 3 / 2 = 0 by norm_num] <;>
          exact List.getElem?_set_eq_of_lt _ (by rw [hl]; omega)
      have hpres := foldl_inv (fun out : List Int => out[0]? = some (x.getD 0 0))
        (upsampleStep x (x.length * 3 / 2)) ((List.range (x.length - 2)).map Nat.succ)
        out1
        (fun out i ho hi => by
          obtain ⟨j, _, hj⟩ := List.mem_map.mp hi
          rw [upsampleStep_getElem?_lt x _ out i 0 (by omega), ho])
        h0
      have hfl :
          ((List.range (x.length - 2)).map Nat.succ).foldl
            (upsampleStep x (x.length * 3 / 2)) out1 =
          (List.range (x.length - 1)).foldl (upsampleStep x (x.length * 3 / 2))
            (List.replicate (x.length * 3 / 2) 0) := by
        rw [hrange, List.foldl_cons, hout1]
      rw [hfl] at hpres
      have hne : ¬ (x.length * 3 / 2 - 1 = 0) := by omega
      rw [List.getD_eq_getElem?_getD, List.getElem?_set_ne hne, hpres]
      rfl
  · -- last sample: the tail write targets slot outputLen - 1
    unfold upsample16to24
    dsimp only
    rw [if_pos hx]
    have hlt : x.length * 3 / 2 - 1 <
        ((List.range (x.length - 1)).foldl (upsampleStep x (x.length * 3 / 2))
          (List.replicate (x.length * 3 / 2) 0)).length := by
      rw [hlenfold]
      omega
    rw [List.getD_eq_getElem?_getD, List.getElem?_set_eq_of_lt _ hlt]
    rfl

/-- Witness for C6 amended at a concrete two-sample input. -/
theorem c6_length_endpoints_witness :
    (upsample16to24 [5, 9]).length = 2 * 3 / 2 ∧
      (upsample16to24 [5, 9]).getD 0 0 = ([5, 9] : List Int).getD 0 0 ∧
      (upsample16to24 [5, 9]).getD (2 * 3 / 2 - 1) 0 = ([5, 9] : List Int).getD (2 - 1) 0 := by
  have h := c6_length_endpoints [5, 9] (by decide)
  simpa using h

/-- C9.  On peak-amplitude frames (every sample ±32767) the resampler's
wrapped arithmetic coincides with exact integer arithmetic — no `int32`
intermediate and no `int16` conversion ever wraps — and every output
sample lies in signed-16-bit range, so no saturation is needed. -/
theorem c9_no_overflow (input : List Int)
    (h : ∀ s ∈ input, s = 32767 ∨ s = -32767) :
    upsample16to24 input = upsample16to24exact input ∧
      ∀ y ∈ upsample16to24 input, -32768 ≤ y ∧ y ≤ 32767 := by
  have hr : ∀ s ∈ input, -32768 ≤ s ∧ s ≤ 32767 := by
    intro s hs
    rcases h s hs with h' | h' <;> rw [h'] <;> norm_num
  constructor
  · unfold upsample16to24 upsample16to24exact
    dsimp only
    have hfold : (List.range (input.length - 1)).foldl
        (upsampleStep input (input.length * 3 / 2))
        (List.replicate (input.length * 3 / 2) 0) =
        (List.range (input.length - 1)).foldl
        (upsampleStepExact input (input.length * 3 / 2))
        (List.replicate (input.length * 3 / 2) 0) :=
      List.foldl_ext _ _ _ (fun out i _ => upsampleStep_eq_exact input _ out i hr)
    rw [hfold]
  · have hstep : ∀ (out : List Int) (i : Nat),
        (∀ y ∈ out, -32768 ≤ y ∧ y ≤ 32767) → ∀ y ∈
          upsampleStep input (input.length * 3 / 2) out i, -32768 ≤ y ∧ y ≤ 32767 := by
      intro out i ho y hy
      have ha := getD_int16 input hr i
      have hb := getD_int16 input hr (i + 1)
      have hv1 := tdiv3_int16 (input.getD i 0 * 1 + input.getD (i + 1) 0 * 2)
        (by omega) (by omega)
      have hv2 := tdiv2_int16 (input.getD i 0 * 1 + input.getD (i + 1) 0 * 1)
        (by omega) (by omega)
      rw [upsampleStep_eq_exact input _ out i hr] at hy
      unfold upsampleStepExact at hy
      dsimp only at hy
      split_ifs at hy with hc1 hc2 hc2
      · rcases List.mem_or_eq_of_mem_set hy with hy' | hy'
        · rcases List.mem_or_eq_of_mem_set hy' with hy'' | hy''
          · rcases List.mem_or_eq_of_mem_set hy'' with hy''' | hy'''
            · exact ho y hy'''
            · subst hy'''; exact ha
          · subst hy''; exact hv1
        · subst hy'; exact hv2
      · rcases List.mem_or_eq_of_mem_set hy with hy' | hy'
        · rcases List.mem_or_eq_of_mem_set hy' with hy'' | hy''
          · exact ho y hy''
          · subst hy''; exact ha
        · subst hy'; exact hv2
      · rcases List.mem_or_eq_of_mem_set hy with hy' | hy'
        · rcases List.mem_or_eq_of_mem_set hy' with hy'' | hy''
          · exact ho y hy''
          · subst hy''; exact ha
        · subst hy'; exact hv1
      · rcases List.mem_or_eq_of_mem_set hy with hy' | hy'
        · exact ho y hy'
        · subst hy'; exact ha
    unfold upsample16to24
    dsimp only
    have hfold := foldl_inv (fun out : List Int => ∀ y ∈ out, -32768 ≤ y ∧ y ≤ 32767)
      (upsampleStep input (input.length * 3 / 2)) (List.range (input.length - 1))
      (List.replicate (input.length * 3 / 2) 0)
      (fun out i ho _ => hstep out i ho)
      (by intro y hy; rw [List.eq_of_mem_replicate hy]; norm_num)
    split_ifs with hpos
    · intro y hy
      rcases List.mem_or_eq_of_mem_set hy with hy' | hy'
      · exact hfold y hy'
      · subst hy'
        exact getD_int16 input hr (input.length - 1)
    · exact hfold

/-- Witness for C9 at a concrete peak-amplitude frame. -/
theorem c9_no_overflow_witness :
    upsample16to24 [(32767 : Int), -32767] = upsample16to24exact [32767, -32767] ∧
      ∀ y ∈ upsample16to24 [(32767 : Int), -32767], -32768 ≤ y ∧ y ≤ 32767 :=
  c9_no_overflow [32767, -32767] (by decide)

/-- C1 counterexample.  Feeding 9 sub-threshold frames and then one
frame of mean-square 10000 produces 11 `voice` commands at onset, not
the claimed 10: the triggering frame is stored into the ring buffer
before the onset check, so the flush emits it as the newest buffered
entry and the callback then sends it again as the current frame. -/
theorem c1_counterexample :
    (processFrames (initBotState 0)
        (List.replicate 9 (silentFrame, 1) ++ [(voicedFrame, 10)])).2 =
      List.replicate 9
          (AnamCmd.voice (pcm16leBytes (upsample16to24 (decodePCM16LE silentFrame)))) ++
        [AnamCmd.voice (pcm16leBytes (upsample16to24 (decodePCM16LE voicedFrame))),
          AnamCmd.voice (pcm16leBytes (upsample16to24 (decodePCM16LE voicedFrame)))] ∧
      (processFrames (initBotState 0)
        (List.replicate 9 (silentFrame, 1) ++ [(voicedFrame, 10)])).2.length = 11 ∧
      ¬ (processFrames (initBotState 0)
        (List.replicate 9 (silentFrame, 1) ++ [(voicedFrame, 10)])).2.length = 10 := by
  decide

/-- C1 amended.  No voice command is emitted while idle: a sub-threshold
frame arriving in the not-sending state produces no output, for every
state and frame.  At onset after 9 sub-threshold frames, the commands
emitted are exactly the 9 buffered frames, oldest first, followed by the
triggering frame twice (once as the newest ring-buffer entry flushed by
the pre-roll, once as the current frame) — 11 voice commands in total,
shown on 9 pairwise-distinct sub-threshold frames so the order is
observable. -/
theorem c1_preroll :
    (∀ (b : VadState) (buf : List Nat) (now : Nat),
        ¬ meanSquare (decodePCM16LE buf) > b.rmsThreshold → b.sendingAudio = false →
        (processFrame b buf now).2 = []) ∧
      (processFrames (initBotState 0)
          ((List.range 9).map (fun k => (toneFrame (k + 1), 0)) ++ [(voicedFrame, 10)])).2 =
        (List.range 9).map (fun k =>
            AnamCmd.voice (pcm16leBytes (upsample16to24 (decodePCM16LE (toneFrame (k + 1)))))) ++
          [AnamCmd.voice (pcm16leBytes (upsample16to24 (decodePCM16LE voicedFrame))),
            AnamCmd.voice (pcm16leBytes (upsample16to24 (decodePCM16LE voicedFrame)))] := by
  constructor
  · intro b buf now hv hs
    simp [processFrame, isFrameSilent_snd, hv, hs]
  · decide

/-- Witness for C1 amended: the idle bot emits nothing on a silent
frame. -/
theorem c1_preroll_witness :
    (processFrame (initBotState 0) silentFrame 3).2 = [] :=
  c1_preroll.1 (initBotState 0) silentFrame 3 (by decide) (by decide)

/-- C4 counterexample.  Two sequential identical Start calls: the second
performs no external POST, but its body is the dedup envelope
`{"data":{...},"ok":true}` while the first call's body is
`{"success":true,...}` — not byte-for-byte identical. -/
theorem c4_counterexample :
    (palabraStart (palabraStart ⟨[], []⟩ ⟨"C", "100", "en", ["fr"]⟩ ⟨true, "T"⟩ true).state
        ⟨"C", "100", "en", ["fr"]⟩ ⟨true, "T"⟩ true).calledPalabraAPI = false ∧
      ¬ (palabraStart (palabraStart ⟨[], []⟩ ⟨"C", "100", "en", ["fr"]⟩ ⟨true, "T"⟩ true).state
          ⟨"C", "100", "en", ["fr"]⟩ ⟨true, "T"⟩ true).body =
        (palabraStart ⟨[], []⟩ ⟨"C", "100", "en", ["fr"]⟩ ⟨true, "T"⟩ true).body := by
  decide

/-- C4 amended.  For two sequential Start calls with the same dedup key:
the first performs the external POST and returns the
`{"success":true,...}` body; the second performs no external POST,
leaves the global state untouched, and returns the same task id and
stream list as the first — but wrapped in the dedup envelope
`{"data":{"streams":...,"taskId":...},"ok":true}`, so the two response
bodies are not byte-for-byte identical. -/
theorem c4_dedup_no_post (st : RegistryState) (req : StartRequest)
    (api api2 : PalabraAPIResult) (anam anam2 : Bool) (lang : String)
    (hch : ¬ req.channel = "") (hsrc : ¬ req.sourceUID = "")
    (hsl : ¬ req.sourceLanguage = "") (hlang : req.targetLanguages = [lang])
    (hmiss : st.activeTasksByKey.lookup (taskKey req.channel req.sourceUID lang) = none)
    (hok : api.ok = true) :
    (palabraStart st req api anam).calledPalabraAPI = true ∧
      (palabraStart (palabraStart st req api anam).state req api2 anam2).calledPalabraAPI
        = false ∧
      (palabraStart (palabraStart st req api anam).state req api2 anam2).state =
        (palabraStart st req api anam).state ∧
      ∃ streams1,
        (palabraStart st req api anam).body = startSuccessBody api.taskID streams1 ∧
        (palabraStart (palabraStart st req api anam).state req api2 anam2).body =
          dedupBody api.taskID streams1 := by
  have hne : ¬ (req.channel = "" ∨ req.sourceUID = "" ∨ req.sourceLanguage = "" ∨
      req.targetLanguages = []) := by
    rw [hlang]
    simp [hch, hsrc, hsl]
  have hfind : req.targetLanguages.findSome?
      (fun l => st.activeTasksByKey.lookup (taskKey req.channel req.sourceUID l)) = none := by
    rw [hlang]
    simp [List.findSome?, hmiss]
  have hnok : ¬ api.ok = false := by rw [hok]; simp
  set S := if anam then (anamLoop req.channel st.channelAnamCounters req.targetLanguages).1
    else (req.targetLanguages.enum.map (fun p => (Nat.repr (3000 + p.1), p.2))) with hS
  set C := if anam then (anamLoop req.channel st.channelAnamCounters req.targetLanguages).2.1
    else st.channelAnamCounters with hC
  set Z := if anam then (anamLoop req.channel st.channelAnamCounters req.targetLanguages).2.2
    else ([] : List SessionUIDs) with hZ
  have h1 : palabraStart st req api anam =
      { calledPalabraAPI := true
        body := startSuccessBody api.taskID S
        state :=
          { activeTasksByKey := (taskKey req.channel req.sourceUID lang,
              { taskID := api.taskID, streams := S, sourceUID := req.sourceUID
                channel := req.channel, language := lang }) :: st.activeTasksByKey
            channelAnamCounters := C }
        sessions := Z } := by
    unfold palabraStart
    rw [if_neg hne, hfind]
    rw [if_neg hnok]
    rw [hlang]
    cases anam <;>
      simp [hS, hC, hZ, hlang]
  have h2 : palabraStart (palabraStart st req api anam).state req api2 anam2 =
      { calledPalabraAPI := false
        body := dedupBody api.taskID S
        state := (palabraStart st req api anam).state
        sessions := [] } := by
    rw [h1]
    unfold palabraStart
    rw [if_neg hne]
    have hhit : req.targetLanguages.findSome? (fun l =>
        (((taskKey req.channel req.sourceUID lang,
          ({ taskID := api.taskID, streams := S, sourceUID := req.sourceUID
             channel := req.channel, language := lang } : TaskInfo)) ::
          st.activeTasksByKey)).lookup (taskKey req.channel req.sourceUID l)) =
        some { taskID := api.taskID, streams := S, sourceUID := req.sourceUID
               channel := req.channel, language := lang } := by
      rw [hlang]
      simp [List.findSome?]
    rw [hhit]
  refine ⟨by rw [h1], by rw [h2], by rw [h2], S, by rw [h1], by rw [h2]⟩

/-- Witness for C4 amended at a concrete request. -/
theorem c4_dedup_no_post_witness :
    (palabraStart ⟨[], []⟩ ⟨"C", "100", "en", ["fr"]⟩ ⟨true, "T"⟩ true).calledPalabraAPI
      = true ∧
      (palabraStart (palabraStart ⟨[], []⟩ ⟨"C", "100", "en", ["fr"]⟩ ⟨true, "T"⟩ true).state
        ⟨"C", "100", "en", ["fr"]⟩ ⟨true, "T"⟩ true).calledPalabraAPI = false ∧
      (palabraStart (palabraStart ⟨[], []⟩ ⟨"C", "100", "en", ["fr"]⟩ ⟨true, "T"⟩ true).state
        ⟨"C", "100", "en", ["fr"]⟩ ⟨true, "T"⟩ true).state =
        (palabraStart ⟨[], []⟩ ⟨"C", "100", "en", ["fr"]⟩ ⟨true, "T"⟩ true).state ∧
      ∃ streams1,
        (palabraStart ⟨[], []⟩ ⟨"C", "100", "en", ["fr"]⟩ ⟨true, "T"⟩ true).body =
          startSuccessBody "T" streams1 ∧
        (palabraStart (palabraStart ⟨[], []⟩ ⟨"C", "100", "en", ["fr"]⟩ ⟨true, "T"⟩ true).state
          ⟨"C", "100", "en", ["fr"]⟩ ⟨true, "T"⟩ true).body = dedupBody "T" streams1 :=
  c4_dedup_no_post ⟨[], []⟩ ⟨"C", "100", "en", ["fr"]⟩ ⟨true, "T"⟩ ⟨true, "T"⟩ true true "fr"
    (by decide) (by decide) (by decide) rfl (by decide) rfl

/-- `getNextAnamUID` returns the channel's current counter (4000 when
the channel is new) and leaves the counter incremented. -/
theorem getNextAnamUID_val (counters : List (String × Nat)) (channel : String) :
    (getNextAnamUID counters channel).1 = ((counters.lookup channel).getD 4000) ∧
      ((getNextAnamUID counters channel).2).lookup channel =
        some ((counters.lookup channel).getD 4000 + 1) := by
  unfold getNextAnamUID
  cases h : counters.lookup channel <;> simp [h]

/-- The avatar-mode loop allocates consecutive avatar uids starting at
the channel's current counter value, with bot uid `4500 + i` and
translator uid `3000 + i` for the `i`-th target: characterization of
the session list it spawns, generalized over the enumeration start. -/
theorem anamLoop_go (channel : String) (langs : List String) :
    ∀ (k : Nat) (counters : List (String × Nat)) (s0 : List (String × String))
      (z0 : List SessionUIDs),
      ((langs.enumFrom k).foldl (anamLoopStep channel) (s0, counters, z0)).2.2 =
        z0 ++ (List.range langs.length).map (fun j =>
          ⟨(counters.lookup channel).getD 4000 + j, 4500 + (k + j), 3000 + (k + j)⟩) := by
  induction langs with
  | nil =>
    intro k counters s0 z0
    simp [List.enumFrom]
  | cons lang rest ih =>
    intro k counters s0 z0
    have hstep : List.enumFrom k (lang :: rest) = (k, lang) :: List.enumFrom (k + 1) rest := rfl
    rw [hstep, List.foldl_cons]
    have hinit : anamLoopStep channel (s0, counters, z0) (k, lang) =
        (s0 ++ [(Nat.repr (getNextAnamUID counters channel).1, lang)],
          (getNextAnamUID counters channel).2,
          z0 ++ [(⟨(getNextAnamUID counters channel).1, 4500 + k, 3000 + k⟩ : SessionUIDs)]) :=
      rfl
    rw [hinit]
    have hc := getNextAnamUID_val counters channel
    rw [ih (k + 1) (getNextAnamUID counters channel).2
      (s0 ++ [(Nat.repr (getNextAnamUID counters channel).1, lang)])
      (z0 ++ [(⟨(getNextAnamUID counters channel).1, 4500 + k, 3000 + k⟩ : SessionUIDs)])]
    rw [hc.1, hc.2]
    rw [List.length_cons, List.range_succ_eq_map, List.map_cons, List.map_map]
    rw [List.append_assoc, List.singleton_append]
    congr 1
    simp
    intro a _
    omega

/-- The sessions spawned by an avatar-mode `PalabraStart` call that
missed the dedup registry. -/
theorem palabraStart_sessions (st : RegistryState) (req : StartRequest)
    (api : PalabraAPIResult)
    (hne : ¬ (req.channel = "" ∨ req.sourceUID = "" ∨ req.sourceLanguage = "" ∨
      req.targetLanguages = []))
    (hfind : req.targetLanguages.findSome?
      (fun l => st.activeTasksByKey.lookup (taskKey req.channel req.sourceUID l)) = none)
    (hok : api.ok = true) :
    (palabraStart st req api true).sessions =
      (List.range req.targetLanguages.length).map (fun j =>
        ⟨(st.channelAnamCounters.lookup req.channel).getD 4000 + j, 4500 + j, 3000 + j⟩) := by
  have hnok : ¬ api.ok = false := by rw [hok]; simp
  unfold palabraStart
  rw [if_neg hne, hfind, if_neg hnok]
  show (anamLoop req.channel st.channelAnamCounters req.targetLanguages).2.2 = _
  unfold anamLoop
  have h := anamLoop_go req.channel req.targetLanguages 0 st.channelAnamCounters [] []
  rw [show req.targetLanguages.enum = req.targetLanguages.enumFrom 0 from rfl]
  rw [h]
  simp

set_option maxRecDepth 2000000 in
/-- C8 counterexample.  A Start request with 500 targets advances the
channel's avatar counter to 4500; the next avatar-mode session on the
same channel then gets avatar uid 4500 — equal to its own bot uid
`4500 + 0` — so the (avatar, bot, translator) triple is not pairwise
disjoint for every sequence of Start requests. -/
theorem c8_counterexample :
    (palabraStart (palabraStart ⟨[], []⟩ ⟨"C", "100", "en", (List.range 500).map Nat.repr⟩
        ⟨true, "T1"⟩ true).state ⟨"C", "200", "en", ["fr"]⟩ ⟨true, "T2"⟩ true).sessions =
      [⟨4500, 4500, 3000⟩] := by
  decide

/-- C8 amended.  The triple of a session at index `i` of an avatar-mode
Start request is `(c₀ + i, 4500 + i, 3000 + i)` where `c₀` is the
channel's avatar counter at the time of the request.  Provided the
counter is in its initial range and the request cannot push it past
4500 — that is, fewer than 500 avatar uids are ever allocated in the
channel, which also bounds the request at 500 targets — every spawned
session's triple is pairwise disjoint and lies inside `[3000, 6000)`,
so it collides with no human participant uid (minted outside that
range).  Without that bound the invariant fails (see the
counterexample). -/
theorem c8_uid_disjoint (st : RegistryState) (req : StartRequest) (api : PalabraAPIResult)
    (hne : ¬ (req.channel = "" ∨ req.sourceUID = "" ∨ req.sourceLanguage = "" ∨
      req.targetLanguages = []))
    (hfind : req.targetLanguages.findSome?
      (fun l => st.activeTasksByKey.lookup (taskKey req.channel req.sourceUID l)) = none)
    (hok : api.ok = true)
    (hc0 : 4000 ≤ (st.channelAnamCounters.lookup req.channel).getD 4000)
    (hcap : (st.channelAnamCounters.lookup req.channel).getD 4000 +
      req.targetLanguages.length ≤ 4500) :
    ∀ s ∈ (palabraStart st req api true).sessions,
      (s.anamUID ≠ s.botUID ∧ s.anamUID ≠ s.palabraUID ∧ s.botUID ≠ s.palabraUID) ∧
        3000 ≤ s.anamUID ∧ s.anamUID < 6000 ∧
        3000 ≤ s.botUID ∧ s.botUID < 6000 ∧
        3000 ≤ s.palabraUID ∧ s.palabraUID < 6000 := by
  intro s hs
  rw [palabraStart_sessions st req api hne hfind hok] at hs
  obtain ⟨j, hj, hsj⟩ := List.mem_map.mp hs
  have hjlt : j < req.targetLanguages.length := List.mem_range.mp hj
  subst hsj
  simp only [ne_eq, SessionUIDs.mk.injEq]
  constructor
  · refine ⟨fun h => ?_, fun h => ?_, fun h => ?_⟩ <;> omega
  · refine ⟨by omega, by omega, by omega, by omega, by omega, by omega⟩

/-- Witness for C8 amended: a fresh single-target request on an empty
registry spawns exactly the session (4000, 4500, 3000), whose triple is
pairwise disjoint and inside the translation range. -/
theorem c8_uid_disjoint_witness :
    (⟨4000, 4500, 3000⟩ : SessionUIDs) ∈
        (palabraStart ⟨[], []⟩ ⟨"C", "100", "en", ["fr"]⟩ ⟨true, "T"⟩ true).sessions ∧
      ((4000 : Nat) ≠ 4500 ∧ (4000 : Nat) ≠ 3000 ∧ (4500 : Nat) ≠ 3000) ∧
        3000 ≤ 4000 ∧ 4000 < 6000 ∧ 3000 ≤ 4500 ∧ 4500 < 6000 ∧
        3000 ≤ 3000 ∧ (3000 : Nat) < 6000 :=
  ⟨by decide,
    c8_uid_disjoint ⟨[], []⟩ ⟨"C", "100", "en", ["fr"]⟩ ⟨true, "T"⟩
      (by decide) (by decide) rfl (by decide) (by decide) ⟨4000, 4500, 3000⟩ (by decide)⟩

end Palabra
